import Mathlib

/-!
Verification of the ddeb-retriever reconciliation charm (`src/charm.py`).

The charm drives a host toward a declared desired state: it validates the
configuration, installs packages, keeps a git checkout in sync, ensures a
system user and an archive directory, renders systemd unit files, and
configures the reverse proxy.  We embed the module constants, the pure
string manipulation (Python `str.split(" ")`, `str.removeprefix`,
`str.strip`), and each convergence step as a function over an explicit
`World` record that carries the host state the code reads and writes,
returning the updated world together with a trace of the external effects
(mutating subprocess/filesystem/init-system calls) the step performs.

Modelling conventions:
* External command outputs the code reads (git `describe`, `rev-parse`,
  `remote get-url`) are fields of `World`; `describeOut = none` models the
  `subprocess.CalledProcessError` branch of `_git_current_ref`.
* Python's `set` iteration order for the missing-keys message is refined
  to the fixed declaration order of the four required keys.
* External commands whose failure the code does not catch are modelled as
  succeeding (their failure aborts a run; no claim is about that path),
  except the `KeyError` of `self.config[...]`, which is modelled because
  `action_update` can actually hit it.
-/

/-! ## Module constants (`src/charm.py` top level) -/

def DEST_INSTALL : String := "/opt/ddeb-retriever"

def DEST_ARCHIVE : String := "/srv/ddebs"

def CONF_GPG_KEY : String := "gpg-key"

def CONF_SCHEDULE : String := "schedule"

def CONF_REF : String := "git-ref"

def CONF_REMOTE : String := "git-repository"

def RUN_COMMAND : List String := [DEST_INSTALL ++ "/ddeb-retriever", "-r", DEST_ARCHIVE]

def USER_DDEB : String := "ddeb"

def USER_WWW : String := "www-data"

/-! ## Statuses, errors, effects -/

/-- Juju unit statuses the charm assigns (`ops.model`). -/
inductive Status where
  | active
  | blocked (msg : String)
  | maintenance
deriving DecidableEq, Repr

/-- Python exceptions the embedding tracks. -/
inductive PyError where
  | keyError (key : String)
  | calledProcessError (returncode : Nat) (cmd : List String)
deriving DecidableEq, Repr

/-- External side effects a convergence step can perform. -/
inductive Effect where
  | aptUpdate
  | aptAddPackage (pkgs : List String)
  | gitCmd (argv : List String)
  | adduser (argv : List String)
  | mkdir (path : String)
  | chown (path owner group : String)
  | chmod (path : String) (mode : Nat)
  | writeFile (path content : String)
  | daemonReload
  | serviceEnable (unit : String)
  | serviceStart (unit : String)
  | servicePause (unit : String)
  | serviceResume (unit : String)
  | serviceReload (unit : String)
  | a2enconf (name : String)
  | subprocess (argv : List String)
  | setPorts (port : Nat)
deriving DecidableEq, Repr

/-- The charm configuration (`self.config`): a key/value map. -/
abbrev Config := List (String × String)

/-- Host state read and written by the charm. -/
structure World where
  /-- whether `apt.update` succeeds (its failure is caught and logged) -/
  aptUpdateOk : Bool
  /-- `DEST_INSTALL.exists()` -/
  installExists : Bool
  /-- stripped output of `git remote get-url origin` -/
  originUrl : String
  /-- output of `git describe --all --exact-match --always HEAD`;
      `none` models the `CalledProcessError` branch -/
  describeOut : Option String
  /-- output of `git rev-parse HEAD` -/
  revParseOut : String
  /-- whether `getpwnam("ddeb")` succeeds -/
  userExists : Bool
  /-- gid of `www-data` from `getgrnam` -/
  wwwGid : Nat
  /-- owner a freshly created directory gets (the charm process user) -/
  mkdirOwner : String
  /-- group a freshly created directory gets -/
  mkdirGroup : String
  /-- `st_mode` a freshly created directory gets -/
  mkdirMode : Nat
  /-- `DEST_ARCHIVE.exists()` -/
  archiveExists : Bool
  /-- `DEST_ARCHIVE.owner()` -/
  archiveOwner : String
  /-- `DEST_ARCHIVE.group()` -/
  archiveGroup : String
  /-- `DEST_ARCHIVE.stat().st_mode` -/
  archiveMode : Nat
  /-- current content of the `.timer` unit file -/
  timerContent : Option String
  /-- current content of the `.service` unit file -/
  serviceContent : Option String
  /-- current content of `/etc/apache2/conf-available/ddebs.conf` -/
  a2confContent : Option String
  /-- whether `/etc/apache2/conf-enabled/ddebs.conf` exists -/
  confEnabled : Bool
  /-- `os.environ["HTTP_PROXY"]` -/
  httpProxy : String
  /-- `os.environ["HTTPS_PROXY"]` -/
  httpsProxy : String
  /-- `os.environ["NO_PROXY"]` -/
  noProxy : String
  /-- `self.unit.status` -/
  status : Status
deriving DecidableEq, Repr

/-! ## Python string primitives used by the charm -/

/-- Characters Python `str.strip()` removes. -/
def isPySpace (c : Char) : Bool :=
  c == ' ' || c == '\t' || c == '\n' || c == '\r' || c == '\x0b' || c == '\x0c'

/-- Strip `isPySpace` characters from both ends of a char list. -/
def stripL (cs : List Char) : List Char :=
  ((cs.dropWhile isPySpace).reverse.dropWhile isPySpace).reverse

/-- Python `str.strip()`. -/
def pyStrip (s : String) : String := String.mk (stripL s.data)

/-- Prefix test used by `removeLeading` (Python `str.startswith`). -/
def isLeadingOf : List Char → List Char → Bool
  | [], _ => true
  | _ :: _, [] => false
  | p :: ps, s :: ss => p == s && isLeadingOf ps ss

/-- Python `str.removeprefix(p)`: drop `p` from the front when it is a
literal leading prefix, otherwise return the string unchanged. -/
def removeLeading (s p : String) : String :=
  if isLeadingOf p.data s.data then String.mk (s.data.drop p.data.length) else s

/-- Split a char list at every character satisfying `p`, keeping empty
pieces, as Python `str.split(sep)` does for a one-character separator. -/
def splitBy (p : Char → Bool) : List Char → List (List Char)
  | [] => [[]]
  | a :: rest =>
    match splitBy p rest with
    | [] => [[a]]
    | t :: ts => if p a then [] :: t :: ts else (a :: t) :: ts

/-- Python `str.split(" ")`. -/
def pySplitOnSpace (s : String) : List String :=
  (splitBy (fun c => c == ' ') s.data).map String.mk

/-- Modelled from the spec: "a caller-supplied, whitespace-delimited
argument list (empty tokens discarded)" — Python `str.split()` with no
separator, i.e. splitting on arbitrary whitespace runs. -/
def whitespaceTokens (s : String) : List String :=
  ((splitBy isPySpace s.data).map String.mk).filter (fun v => v != "")

/-! ## git helpers (`_git`, `_git_current_ref`) -/

/-- Argument list built by `_git(*args, git_dir=...)`: `clone` invocations
get no `-C` scope flag, everything else runs `git -C <git_dir> ...`. -/
def gitArgs (gitDir : String) (args : List String) : List String :=
  match args with
  | a :: rest => if a = "clone" then "git" :: a :: rest else "git" :: "-C" :: gitDir :: a :: rest
  | [] => ["git", "-C", gitDir]

/-- `_git` with the default `git_dir=DEST_INSTALL`. -/
def gitInvocation (args : List String) : List String :=
  gitArgs DEST_INSTALL args

/-- Post-processing of the `git describe` output in `_git_current_ref`:
`ref.removeprefix("remote/origin/").removeprefix("heads/").strip()`. -/
def refFromDescribe (s : String) : String :=
  pyStrip (removeLeading (removeLeading s "remote/origin/") "heads/")

/-- `_git_current_ref()`: describe HEAD restricted to ref names and strip
the tracking prefixes; on `CalledProcessError` fall back to
`git rev-parse HEAD`.  Returns the resolved identity and the git
commands run. -/
def git_current_ref (w : World) : String × List Effect :=
  match w.describeOut with
  | some ref =>
    (refFromDescribe ref,
     [Effect.gitCmd (gitInvocation ["describe", "--all", "--exact-match", "--always", "HEAD"])])
  | none =>
    (pyStrip w.revParseOut,
     [Effect.gitCmd (gitInvocation ["describe", "--all", "--exact-match", "--always", "HEAD"]),
      Effect.gitCmd (gitInvocation ["rev-parse", "HEAD"])])

/-! ## Precondition gate (`config_is_valid`) -/

/-- The four required configuration keys (`required` in `config_is_valid`),
in declaration order. -/
def requiredKeys : List String := [CONF_GPG_KEY, CONF_SCHEDULE, CONF_REF, CONF_REMOTE]

/-- Required keys absent from the configuration
(`required.difference(self.config.keys())`, refined to declaration order). -/
def missingKeys (cfg : Config) : List String :=
  requiredKeys.filter (fun k => (cfg.lookup k).isNone)

/-- `DdebCharm.config_is_valid`: when required keys are missing, set the
unit status to `Blocked` listing them and return `False`. -/
def config_is_valid (cfg : Config) (w : World) : Bool × World :=
  if missingKeys cfg = [] then (true, w)
  else
    (false,
     {w with status := Status.blocked ("Needs: " ++ String.intercalate ", " (missingKeys cfg))})

/-- `self.config[key]`: raises `KeyError` when the key is absent. -/
def configGet (cfg : Config) (k : String) : Except PyError String :=
  match cfg.lookup k with
  | some v => Except.ok v
  | none => Except.error (PyError.keyError k)

/-! ## Convergence steps -/

/-- `DdebCharm.do_deps`: `apt.update()` then `apt.add_package([...])`;
`apt.Error` is caught and only logged, so a failed update skips the
install but aborts nothing. -/
def do_deps (w : World) : World × List Effect :=
  if w.aptUpdateOk then
    (w, [Effect.aptUpdate, Effect.aptAddPackage ["git", "systemd", "python3-launchpadlib", "apache2"]])
  else
    (w, [Effect.aptUpdate])

/-- `DdebCharm.do_user`: no-op when `getpwnam("ddeb")` succeeds, otherwise
`adduser --system --gid <www-data gid> --home /var/cache/ddeb ddeb`. -/
def do_user (w : World) : World × List Effect :=
  if w.userExists then (w, [])
  else
    ({w with userExists := true},
     [Effect.adduser
        ["adduser", "--system", "--gid", toString w.wwwGid, "--home", "/var/cache/ddeb", USER_DDEB]])

/-- First check of `do_dirs`: `DEST_ARCHIVE.mkdir()` when the directory is
missing; a fresh directory gets the ambient owner/group/mode. -/
def dirEnsureExists (w : World) : World × List Effect :=
  if w.archiveExists then (w, [])
  else
    ({w with archiveExists := true, archiveOwner := w.mkdirOwner,
             archiveGroup := w.mkdirGroup, archiveMode := w.mkdirMode},
     [Effect.mkdir DEST_ARCHIVE])

/-- Second check of `do_dirs`: `os.chown` to `ddeb:www-data` only when
owner or group differs. -/
def dirEnsureOwner (w : World) : World × List Effect :=
  if w.archiveOwner ≠ USER_DDEB ∨ w.archiveGroup ≠ USER_WWW then
    ({w with archiveOwner := USER_DDEB, archiveGroup := USER_WWW},
     [Effect.chown DEST_ARCHIVE USER_DDEB USER_WWW])
  else (w, [])

/-- Third check of `do_dirs`: `chmod(0o755)` only when
`st_mode & 0o777 != 0o755`; `chmod` replaces the low 12 mode bits. -/
def dirEnsureMode (w : World) : World × List Effect :=
  if w.archiveMode % 512 ≠ 493 then
    ({w with archiveMode := w.archiveMode - w.archiveMode % 4096 + 493},
     [Effect.chmod DEST_ARCHIVE 493])
  else (w, [])

/-- `DdebCharm.do_dirs`: the three independent checks in sequence. -/
def do_dirs (w : World) : World × List Effect :=
  let p1 := dirEnsureExists w
  let p2 := dirEnsureOwner p1.fst
  let p3 := dirEnsureMode p2.fst
  (p3.fst, p1.snd ++ p2.snd ++ p3.snd)

/-- `DdebCharm.do_git`: clone when the install path is missing, repoint
origin and fetch when the remote differs, check out `origin/<ref>` when
the resolved current ref differs from the desired ref. -/
def do_git (conf_ref conf_remote : String) (w : World) : World × List Effect :=
  let p1 :=
    if w.installExists then (w, ([] : List Effect))
    else
      ({w with installExists := true, originUrl := conf_remote},
       [Effect.gitCmd (gitInvocation ["clone", conf_remote, DEST_INSTALL])])
  let w1 := p1.fst
  let tGetUrl := [Effect.gitCmd (gitInvocation ["remote", "get-url", "origin"])]
  let p2 :=
    if conf_remote ≠ w1.originUrl then
      ({w1 with originUrl := conf_remote},
       [Effect.gitCmd (gitInvocation ["remote", "set-url", "origin", conf_remote]),
        Effect.gitCmd (gitInvocation ["fetch", "origin"])])
    else (w1, [])
  let w2 := p2.fst
  let cr := git_current_ref w2
  let p3 :=
    if conf_ref ≠ cr.fst then
      (w2, [Effect.gitCmd (gitInvocation ["checkout", "origin/" ++ conf_ref])])
    else (w2, [])
  (p3.fst, p1.snd ++ tGetUrl ++ p2.snd ++ cr.snd ++ p3.snd)

/-- Timer unit rendered by `do_systemd`. -/
def timerText (schedule : String) : String :=
  "# Managed by ddeb charm.\n[Unit]\nDescription=Trigger ddeb-retriever\n[Timer]\nOnCalendar="
    ++ schedule ++ "\n[Install]\nWantedBy=timers.target\n"

/-- Service unit rendered by `do_systemd`. -/
def serviceText (httpProxy httpsProxy noProxy : String) : String :=
  "# Managed by ddeb charm.\n[Unit]\nDescription=Trigger ddeb-retriever\n[Service]\nRestart=on-failure\nUser="
    ++ USER_DDEB ++ "\nExecStart=" ++ String.intercalate " " RUN_COMMAND
    ++ "\nEnvironment=HTTP_PROXY=" ++ httpProxy
    ++ "\nEnvironment=HTTPS_PROXY=" ++ httpsProxy
    ++ "\nEnvironment=NO_PROXY=" ++ noProxy ++ "\n"

/-- `pathops.ensure_contents` changed-flag: true when the current content
differs from the desired text (a write happens exactly then). -/
def ensure_contents (current : Option String) (source : String) : Bool :=
  current != some source

/-- `DdebCharm.do_systemd`: render both unit files with `ensure_contents`,
then — unconditionally in the source; the accumulated `changed` flag is
never read — reload the unit database and enable and start the timer. -/
def do_systemd (sched : String) (w : World) : World × List Effect :=
  let timerSrc := timerText sched
  let changed1 := ensure_contents w.timerContent timerSrc
  let serviceSrc := serviceText w.httpProxy w.httpsProxy w.noProxy
  let changed2 := ensure_contents w.serviceContent serviceSrc
  ({w with timerContent := some timerSrc, serviceContent := some serviceSrc},
   (if changed1 then [Effect.writeFile "/etc/systemd/system/ddeb-retriever.timer" timerSrc] else [])
     ++ (if changed2 then [Effect.writeFile "/etc/systemd/system/ddeb-retriever.service" serviceSrc] else [])
     ++ [Effect.daemonReload, Effect.serviceEnable "ddeb-retriever.timer",
         Effect.serviceStart "ddeb-retriever.timer"])

/-- Apache configuration rendered by `do_httpd`. -/
def a2confText : String :=
  "# Managed by ddeb charm.\nAlias / /srv/ddebs/\n<Directory />\n  Options Indexes MultiViews FollowSymLinks\n  Require all granted\n</Directory>\n"

/-- `DdebCharm.do_httpd`: idempotent write of the apache conf, `a2enconf`
when the enabled marker is missing, reload when either happened. -/
def do_httpd (w : World) : World × List Effect :=
  let changed := ensure_contents w.a2confContent a2confText
  let w1 := {w with a2confContent := some a2confText}
  let tWrite := if changed then [Effect.writeFile "/etc/apache2/conf-available/ddebs.conf" a2confText] else []
  let pEnable :=
    if w1.confEnabled then ((w1, ([] : List Effect)), changed)
    else (({w1 with confEnabled := true}, [Effect.a2enconf "ddebs"]), true)
  let needsReload := pEnable.snd
  (pEnable.fst.fst,
   tWrite ++ pEnable.fst.snd
     ++ (if needsReload then [Effect.serviceReload "apache2.service"] else []))

/-- The step sequence of a gated convergence run, in the order `apply`
executes it, ending with `set_ports(80)` and `ActiveStatus`. -/
def runSteps (ref remote sched : String) (w : World) : World × List Effect :=
  let p1 := do_deps w
  let p2 := do_git ref remote p1.fst
  let p3 := do_user p2.fst
  let p4 := do_dirs p3.fst
  let p5 := do_systemd sched p4.fst
  let p6 := do_httpd p5.fst
  ({p6.fst with status := Status.active},
   p1.snd ++ p2.snd ++ p3.snd ++ p4.snd ++ p5.snd ++ p6.snd ++ [Effect.setPorts 80])

/-- `DdebCharm.apply`: run `config_is_valid` and stop with no effects when
it fails, otherwise run every convergence step and finish `Active`. -/
def apply (cfg : Config) (w : World) : Except PyError (World × List Effect) :=
  let v := config_is_valid cfg w
  if v.fst then do
    let p1 := do_deps v.snd
    let ref ← configGet cfg CONF_REF
    let remote ← configGet cfg CONF_REMOTE
    let p2 := do_git ref remote p1.fst
    let p3 := do_user p2.fst
    let p4 := do_dirs p3.fst
    let sched ← configGet cfg CONF_SCHEDULE
    let p5 := do_systemd sched p4.fst
    let p6 := do_httpd p5.fst
    Except.ok
      ({p6.fst with status := Status.active},
       p1.snd ++ p2.snd ++ p3.snd ++ p4.snd ++ p5.snd ++ p6.snd ++ [Effect.setPorts 80])
  else Except.ok (v.snd, [])

/-! ## Action handlers -/

/-- `DdebCharm.action_update`: read `config["git-ref"]` (a `KeyError` when
absent aborts the handler before any git call), then `git fetch origin`
and `git checkout origin/<ref>` — nothing else. -/
def action_update (cfg : Config) (w : World) : World × List Effect × Option PyError :=
  match cfg.lookup CONF_REF with
  | none => (w, [], some (PyError.keyError CONF_REF))
  | some conf_ref =>
    (w,
     [Effect.gitCmd (gitInvocation ["fetch", "origin"]),
      Effect.gitCmd (gitInvocation ["checkout", "origin/" ++ conf_ref])],
     none)

/-- Token list of `action_run`:
`tuple(v for v in params.get("args", "").split(" ") if v)`. -/
def action_run_args (params : String) : List String :=
  (pySplitOnSpace params).filter (fun v => v != "")

/-- Full argv `action_run` passes to `subprocess.check_call`. -/
def action_run_argv (params : String) : List String :=
  ["sudo", "-u", USER_DDEB, "--"] ++ RUN_COMMAND ++ action_run_args params

/-- `DdebCharm.action_run`: run the retriever under the `ddeb` user with
the parsed tokens appended; a non-zero exit raises
`CalledProcessError`. -/
def action_run (params : String) (exitCode : Nat) (w : World) :
    World × List Effect × Option PyError :=
  (w, [Effect.subprocess (action_run_argv params)],
   if exitCode = 0 then none
   else some (PyError.calledProcessError exitCode (action_run_argv params)))

/-- `DdebCharm.action_pause`: pause timer and service, set
`MaintenanceStatus`. -/
def action_pause (w : World) : World × List Effect :=
  ({w with status := Status.maintenance},
   [Effect.servicePause "ddeb-retriever.timer", Effect.servicePause "ddeb-retriever.service"])

/-- `DdebCharm.action_resume`: resume timer and service, set
`ActiveStatus`. -/
def action_resume (w : World) : World × List Effect :=
  ({w with status := Status.active},
   [Effect.serviceResume "ddeb-retriever.timer", Effect.serviceResume "ddeb-retriever.service"])

/-- Events observed in `DdebCharm.__init__`, in registration order
(`framework.observe(self.on.<event>, handler)`). -/
def observedEvents : List String :=
  ["install", "config_changed", "start", "update_action", "run_action"]

/-! ## Concrete worlds for witnesses -/

/-- A fully converged host: user present, archive directory owned
`ddeb:www-data` with `st_mode 0o40755`. -/
def baseWorld : World where
  aptUpdateOk := true
  installExists := true
  originUrl := "http://repo"
  describeOut := some "heads/main\n"
  revParseOut := "0123abcd\n"
  userExists := true
  wwwGid := 33
  mkdirOwner := "root"
  mkdirGroup := "root"
  mkdirMode := 16877
  archiveExists := true
  archiveOwner := "ddeb"
  archiveGroup := "www-data"
  archiveMode := 16877
  timerContent := none
  serviceContent := none
  a2confContent := none
  confEnabled := false
  httpProxy := ""
  httpsProxy := ""
  noProxy := ""
  status := Status.active

/-- A host whose systemd unit files already hold the rendered content for
schedule `daily` and empty proxy settings. -/
def steadyWorld : World :=
  {baseWorld with timerContent := some (timerText "daily"),
                  serviceContent := some (serviceText "" "" "")}

/-- A repository detached at a commit with no matching ref name:
`git describe` fails, `git rev-parse HEAD` reports the commit. -/
def detachedWorld : World :=
  {baseWorld with describeOut := none, revParseOut := "0123abcd\n"}

/-! ## Sanity checks on the embedding -/

example : gitInvocation ["clone", "http://repo", "/target"]
    = ["git", "clone", "http://repo", "/target"] := by decide

example : gitInvocation ["branch"] = ["git", "-C", "/opt/ddeb-retriever", "branch"] := by decide

example : pySplitOnSpace "  -v  --dry-run " = ["", "", "-v", "", "--dry-run", ""] := by decide

example : pyStrip "  abc\n" = "abc" := by decide

example : refFromDescribe "heads/main\n" = "main" := by decide

example : refFromDescribe "remotes/origin/main\n" = "remotes/origin/main" := by decide

example : missingKeys [("gpg-key", "k"), ("schedule", "daily")] = ["git-ref", "git-repository"] := by
  decide

example : action_run_args "  -v  --dry-run " = ["-v", "--dry-run"] := by decide

/-! ## Helper lemmas -/

theorem splitBy_ne_nil (p : Char → Bool) (cs : List Char) : splitBy p cs ≠ [] := by
  cases cs with
  | nil => simp [splitBy]
  | cons a rest =>
    simp only [splitBy]
    cases splitBy p rest with
    | nil => simp
    | cons t ts => by_cases hp : p a <;> simp [hp]

theorem splitBy_pieces_clean (p : Char → Bool) (cs : List Char) :
    ∀ t ∈ splitBy p cs, ∀ c ∈ t, p c = false := by
  induction cs with
  | nil =>
    intro t ht c hc
    simp only [splitBy, List.mem_singleton] at ht
    subst ht
    simp at hc
  | cons a rest ih =>
    intro t ht c hc
    simp only [splitBy] at ht
    cases h : splitBy p rest with
    | nil => exact absurd h (splitBy_ne_nil p rest)
    | cons t0 ts =>
      rw [h] at ht
      by_cases hp : p a
      · simp only [hp, if_pos] at ht
        rcases List.mem_cons.mp ht with rfl | ht2
        · simp at hc
        · exact ih t (h ▸ ht2) c hc
      · have hpf : p a = false := by simpa using hp
        simp only [hpf, Bool.false_eq_true, if_neg, not_false_iff] at ht
        rcases List.mem_cons.mp ht with rfl | ht2
        · rcases List.mem_cons.mp hc with rfl | hc2
          · exact hpf
          · exact ih t0 (h ▸ List.mem_cons_self t0 ts) c hc2
        · exact ih t (h ▸ List.mem_cons_of_mem t0 ht2) c hc

theorem dropWhile_all_false {p : Char → Bool} {l : List Char}
    (h : ∀ c ∈ l, p c = false) : l.dropWhile p = l := by
  cases l with
  | nil => rfl
  | cons a t => simp [List.dropWhile_cons, h a (List.mem_cons_self a t)]

theorem stripL_all_false {l : List Char} (h : ∀ c ∈ l, isPySpace c = false) :
    stripL l = l := by
  unfold stripL
  rw [dropWhile_all_false h,
      dropWhile_all_false (fun c hc => h c (List.mem_reverse.mp hc)),
      List.reverse_reverse]

theorem pyStrip_clean {X : String} (h : ∀ c ∈ X.data, isPySpace c = false) :
    pyStrip X = X := by
  obtain ⟨xs⟩ := X
  show String.mk (stripL xs) = String.mk xs
  rw [stripL_all_false h]

/-! ## Claims -/

/-- Claim C3: the low-level git helper builds `["git", <args...>]` when the
first argument is `"clone"` and `["git", "-C", "/opt/ddeb-retriever",
<args...>]` for every other first argument, in particular on the two
concrete invocations named by the claim. -/
theorem git_invocation_spec (a : String) (rest : List String) :
    gitInvocation ("clone" :: rest) = "git" :: "clone" :: rest ∧
    (a ≠ "clone" →
      gitInvocation (a :: rest) = "git" :: "-C" :: "/opt/ddeb-retriever" :: a :: rest) ∧
    gitInvocation ["clone", "http://repo", "/target"]
      = ["git", "clone", "http://repo", "/target"] ∧
    gitInvocation ["branch"] = ["git", "-C", "/opt/ddeb-retriever", "branch"] := by
  refine ⟨by simp [gitInvocation, gitArgs], fun h => ?_, by decide, by decide⟩
  simp [gitInvocation, gitArgs, h, DEST_INSTALL]

/-- Witness for C3 at the concrete input `("branch",)`. -/
theorem git_invocation_spec_witness :
    gitInvocation ["branch"] = "git" :: "-C" :: "/opt/ddeb-retriever" :: "branch" :: [] :=
  (git_invocation_spec "branch" []).2.1 (by decide)

/-- Claim C5 counterexample: on the params string `"a\tb"` the code keeps the
tab inside a single token, while splitting on whitespace (as the claim
states) would give two tokens. -/
theorem run_args_whitespace_counterexample :
    whitespaceTokens "a\tb" = ["a", "b"] ∧
    action_run_args "a\tb" = ["a\tb"] ∧
    action_run_args "a\tb" ≠ whitespaceTokens "a\tb" := by
  refine ⟨by decide, by decide, by decide⟩

/-- Claim C5 amended: the argument list is the sequence of non-empty tokens of
the params string split on the space character only (other whitespace
stays inside tokens); tokens are non-empty and space-free, the claimed
example holds, the subprocess runs `sudo -u ddeb -- <RUN_COMMAND>` plus
the tokens, and a non-zero exit surfaces as `CalledProcessError`. -/
theorem run_args_space_split_spec (params : String) (exitCode : Nat) (w : World) :
    action_run_args "  -v  --dry-run " = ["-v", "--dry-run"] ∧
    (∀ t ∈ action_run_args params, t ≠ "") ∧
    (∀ t ∈ action_run_args params, ∀ c ∈ t.data, c ≠ ' ') ∧
    (action_run params exitCode w).1 = w ∧
    (action_run params exitCode w).2.1
      = [Effect.subprocess
          (["sudo", "-u", "ddeb", "--", "/opt/ddeb-retriever/ddeb-retriever", "-r", "/srv/ddebs"]
            ++ action_run_args params)] ∧
    (exitCode = 0 → (action_run params exitCode w).2.2 = none) ∧
    (exitCode ≠ 0 →
      (action_run params exitCode w).2.2
        = some (PyError.calledProcessError exitCode (action_run_argv params))) := by
  refine ⟨by decide, ?_, ?_, rfl, ?_, ?_, ?_⟩
  · intro t ht
    have := List.of_mem_filter ht
    simpa using this
  · intro t ht c hc
    have ht2 : t ∈ pySplitOnSpace params := List.mem_of_mem_filter ht
    simp only [pySplitOnSpace, List.mem_map] at ht2
    obtain ⟨piece, hpiece, rfl⟩ := ht2
    have hclean := splitBy_pieces_clean (fun c => c == ' ') params.data piece hpiece c hc
    simpa using hclean
  · show (action_run params exitCode w).2.1
      = [Effect.subprocess
          (["sudo", "-u", "ddeb", "--", "/opt/ddeb-retriever/ddeb-retriever", "-r", "/srv/ddebs"]
            ++ action_run_args params)]
    simp [action_run, action_run_argv, RUN_COMMAND, USER_DDEB, DEST_INSTALL, DEST_ARCHIVE]
  · intro h; simp [action_run, h]
  · intro h; simp [action_run, h]

/-- Witness for C5's amended theorem at exit code 1. -/
theorem run_args_space_split_spec_witness :
    (action_run "  -v  --dry-run " 1 baseWorld).2.2
      = some (PyError.calledProcessError 1 (action_run_argv "  -v  --dry-run ")) :=
  (run_args_space_split_spec "  -v  --dry-run " 1 baseWorld).2.2.2.2.2.2 (by decide)

/-- Claim C6 (code evaluated at the failing input): `__init__` registers
handlers only for install, config-changed, start, the update action and
the run action — `pause_action` and `resume_action` are never observed,
so pause/resume are not dispatchable, although their handler bodies do
set `MaintenanceStatus` and `ActiveStatus` respectively. -/
theorem pause_resume_unregistered (w : World) :
    observedEvents = ["install", "config_changed", "start", "update_action", "run_action"] ∧
    "update_action" ∈ observedEvents ∧
    "run_action" ∈ observedEvents ∧
    "pause_action" ∉ observedEvents ∧
    "resume_action" ∉ observedEvents ∧
    (action_pause w).fst.status = Status.maintenance ∧
    (action_resume w).fst.status = Status.active := by
  refine ⟨rfl, by decide, by decide, by decide, by decide, rfl, rfl⟩

/-- Claim C7: the force-update action performs exactly a fetch from origin and
a checkout of `origin/<ref>`; every effect it emits is a git command (no
clone, no remote repoint, no package/user/directory/unit/proxy
operation), and the tracked host state is left unchanged. -/
theorem action_update_frame_spec (cfg : Config) (w : World) (r : String)
    (h : cfg.lookup CONF_REF = some r) :
    action_update cfg w
      = (w, [Effect.gitCmd ["git", "-C", "/opt/ddeb-retriever", "fetch", "origin"],
             Effect.gitCmd ["git", "-C", "/opt/ddeb-retriever", "checkout", "origin/" ++ r]],
         none) ∧
    (∀ e ∈ (action_update cfg w).2.1, ∃ argv, e = Effect.gitCmd argv) ∧
    (action_update cfg w).fst = w := by
  have e1 : action_update cfg w
      = (w, [Effect.gitCmd ["git", "-C", "/opt/ddeb-retriever", "fetch", "origin"],
             Effect.gitCmd ["git", "-C", "/opt/ddeb-retriever", "checkout", "origin/" ++ r]],
         none) := by
    simp [action_update, h, gitInvocation, gitArgs, DEST_INSTALL]
  refine ⟨e1, ?_, by rw [e1]⟩
  rw [e1]
  intro e he
  rcases List.mem_cons.mp he with rfl | he2
  · exact ⟨_, rfl⟩
  · rcases List.mem_cons.mp he2 with rfl | he3
    · exact ⟨_, rfl⟩
    · simp at he3

/-- Witness for C7 at a configuration whose ref is `main`. -/
theorem action_update_frame_spec_witness :
    action_update [(CONF_REF, "main")] baseWorld
      = (baseWorld,
         [Effect.gitCmd ["git", "-C", "/opt/ddeb-retriever", "fetch", "origin"],
          Effect.gitCmd ["git", "-C", "/opt/ddeb-retriever", "checkout", "origin/" ++ "main"]],
         none) :=
  (action_update_frame_spec [(CONF_REF, "main")] baseWorld "main" (by decide)).1

/-- Claim C10: force-update reads `config["git-ref"]` with no validity gate:
when the key is absent the handler stops with a `KeyError` (the action
fails) before any git call and without touching the unit status, and
when the key is present the handler proceeds regardless of any other
missing required key. -/
theorem action_update_gate_bypass (cfg : Config) (w : World) :
    (cfg.lookup CONF_REF = none →
      action_update cfg w = (w, [], some (PyError.keyError CONF_REF))) ∧
    (∀ r, cfg.lookup CONF_REF = some r →
      (action_update cfg w).2.2 = none ∧ (action_update cfg w).fst = w) := by
  constructor
  · intro h; simp [action_update, h]
  · intro r h; simp [action_update, h]

/-- Witness for C10: a configuration holding only `gpg-key` makes the
update action raise `KeyError("git-ref")` with no effects. -/
theorem action_update_gate_bypass_witness :
    action_update [("gpg-key", "k")] baseWorld
      = (baseWorld, [], some (PyError.keyError CONF_REF)) :=
  (action_update_gate_bypass [("gpg-key", "k")] baseWorld).1 (by decide)

/-- Claim C2 (code evaluated at the failing input): on a host whose two unit
files already hold the rendered content — both `ensure_contents` calls
report no change — `do_systemd` still performs the daemon reload, the
enable and the start of the trigger unit: the reload sequence is
unconditional in the code, the accumulated `changed` flag is never
read. -/
theorem do_systemd_always_reloads :
    ensure_contents steadyWorld.timerContent (timerText "daily") = false ∧
    ensure_contents steadyWorld.serviceContent
      (serviceText steadyWorld.httpProxy steadyWorld.httpsProxy steadyWorld.noProxy) = false ∧
    (do_systemd "daily" steadyWorld).snd
      = [Effect.daemonReload, Effect.serviceEnable "ddeb-retriever.timer",
         Effect.serviceStart "ddeb-retriever.timer"] := by
  refine ⟨?_, ?_, ?_⟩ <;> simp [do_systemd, ensure_contents, steadyWorld, baseWorld]

theorem refFromDescribe_heads (X : String) (h : ∀ c ∈ X.data, isPySpace c = false) :
    refFromDescribe ("heads/" ++ X) = X := by
  obtain ⟨xs⟩ := X
  have e1 : refFromDescribe ("heads/" ++ String.mk xs) = pyStrip (String.mk xs) := rfl
  rw [e1]
  exact pyStrip_clean h

theorem refFromDescribe_remotes (Y : String) (h : ∀ c ∈ Y.data, isPySpace c = false) :
    refFromDescribe ("remotes/origin/" ++ Y) = "remotes/origin/" ++ Y := by
  obtain ⟨ys⟩ := Y
  have e1 : refFromDescribe ("remotes/origin/" ++ String.mk ys)
      = pyStrip ("remotes/origin/" ++ String.mk ys) := rfl
  rw [e1]
  refine pyStrip_clean ?_
  intro c hc
  have hd : ("remotes/origin/" ++ String.mk ys).data = "remotes/origin/".data ++ ys := rfl
  rw [hd] at hc
  rcases List.mem_append.mp hc with h1 | h2
  · exact (by decide : ∀ c ∈ "remotes/origin/".data, isPySpace c = false) c h1
  · exact h c h2

/-- Claim C9: the describe post-processing strips only the literal prefixes
`remote/origin/` then `heads/`: a describe output `heads/X` resolves to
`X`, while the remote-tracking spelling `remotes/origin/Y` (with the
trailing `s`) is returned with its prefix intact and therefore never
equals a desired ref that does not itself carry that prefix. -/
theorem describe_strip_spec (X Y : String)
    (hX : ∀ c ∈ X.data, isPySpace c = false) (hY : ∀ c ∈ Y.data, isPySpace c = false) :
    refFromDescribe ("heads/" ++ X) = X ∧
    refFromDescribe ("remotes/origin/" ++ Y) = "remotes/origin/" ++ Y ∧
    ∀ ref : String, (∀ suffix, ref ≠ "remotes/origin/" ++ suffix) →
      refFromDescribe ("remotes/origin/" ++ Y) ≠ ref := by
  refine ⟨refFromDescribe_heads X hX, refFromDescribe_remotes Y hY, ?_⟩
  intro ref hr he
  rw [refFromDescribe_remotes Y hY] at he
  exact hr Y he.symm

theorem dirEnsureExists_fields (w : World) :
    (dirEnsureExists w).fst.archiveExists = true := by
  unfold dirEnsureExists
  split <;> simp_all

theorem dirEnsureOwner_fields (w : World) :
    (dirEnsureOwner w).fst.archiveOwner = USER_DDEB ∧
    (dirEnsureOwner w).fst.archiveGroup = USER_WWW ∧
    (dirEnsureOwner w).fst.archiveExists = w.archiveExists ∧
    (dirEnsureOwner w).fst.archiveMode = w.archiveMode := by
  unfold dirEnsureOwner
  split
  · simp
  · next h =>
    push_neg at h
    exact ⟨h.1, h.2, rfl, rfl⟩

theorem dirEnsureMode_fields (w : World) :
    (dirEnsureMode w).fst.archiveMode % 512 = 493 ∧
    (dirEnsureMode w).fst.archiveExists = w.archiveExists ∧
    (dirEnsureMode w).fst.archiveOwner = w.archiveOwner ∧
    (dirEnsureMode w).fst.archiveGroup = w.archiveGroup := by
  unfold dirEnsureMode
  split
  · next h =>
    refine ⟨?_, rfl, rfl, rfl⟩
    show (w.archiveMode - w.archiveMode % 4096 + 493) % 512 = 493
    omega
  · next h =>
    push_neg at h
    exact ⟨h, rfl, rfl, rfl⟩

theorem do_dirs_noop (w : World)
    (h1 : w.archiveExists = true) (h2 : w.archiveOwner = USER_DDEB)
    (h3 : w.archiveGroup = USER_WWW) (h4 : w.archiveMode % 512 = 493) :
    do_dirs w = (w, []) := by
  unfold do_dirs dirEnsureExists dirEnsureOwner dirEnsureMode
  simp [h1, h2, h3, h4]

/-- Claim C8: the directory step is idempotent — a second run from the state the
first run produced leaves it unchanged and performs zero mutating calls —
each of its three checks fires exactly when its own condition (existence,
`ddeb:www-data` ownership, permission bits `0o755`) is unmet at its
evaluation point, and from a converged state the step is a strict
no-op. -/
theorem do_dirs_idem_spec (w : World) :
    do_dirs (do_dirs w).fst = ((do_dirs w).fst, []) ∧
    ((dirEnsureExists w).snd = [] ↔ w.archiveExists = true) ∧
    ((dirEnsureOwner (dirEnsureExists w).fst).snd = []
      ↔ ((dirEnsureExists w).fst.archiveOwner = USER_DDEB
          ∧ (dirEnsureExists w).fst.archiveGroup = USER_WWW)) ∧
    ((dirEnsureMode (dirEnsureOwner (dirEnsureExists w).fst).fst).snd = []
      ↔ (dirEnsureOwner (dirEnsureExists w).fst).fst.archiveMode % 512 = 493) ∧
    (w.archiveExists = true ∧ w.archiveOwner = USER_DDEB ∧ w.archiveGroup = USER_WWW
        ∧ w.archiveMode % 512 = 493
      → do_dirs w = (w, [])) := by
  refine ⟨?_, ?_, ?_, ?_, fun h => do_dirs_noop w h.1 h.2.1 h.2.2.1 h.2.2.2⟩
  · have hfst : (do_dirs w).fst = (dirEnsureMode (dirEnsureOwner (dirEnsureExists w).fst).fst).fst := rfl
    obtain ⟨hm4, hm1, hm2, hm3⟩ := dirEnsureMode_fields (dirEnsureOwner (dirEnsureExists w).fst).fst
    obtain ⟨ho2, ho3, ho1, _⟩ := dirEnsureOwner_fields (dirEnsureExists w).fst
    refine do_dirs_noop _ ?_ ?_ ?_ ?_
    · rw [hfst, hm1, ho1, dirEnsureExists_fields]
    · rw [hfst, hm2, ho2]
    · rw [hfst, hm3, ho3]
    · rw [hfst]; exact hm4
  · unfold dirEnsureExists
    split <;> simp_all
  · unfold dirEnsureOwner
    split
    · next h =>
      simp only [List.cons_ne_self]
      constructor
      · intro hfalse; exact absurd hfalse (by simp)
      · intro hok; rcases h with h | h <;> exact absurd (by tauto) h
    · next h =>
      push_neg at h
      simp [h.1, h.2]
  · unfold dirEnsureMode
    split
    · next h => simp [h]
    · next h =>
      push_neg at h
      simp [h]

/-- Witness for C8: on the converged host the step mutates nothing. -/
theorem do_dirs_idem_spec_witness : do_dirs baseWorld = (baseWorld, []) :=
  (do_dirs_idem_spec baseWorld).2.2.2.2 ⟨rfl, rfl, rfl, by decide⟩

/-- Witness for C9 at the ref name `main`. -/
theorem describe_strip_spec_witness :
    refFromDescribe ("heads/" ++ "main") = "main" ∧
    refFromDescribe ("remotes/origin/" ++ "main") = "remotes/origin/" ++ "main" ∧
    ∀ ref : String, (∀ suffix, ref ≠ "remotes/origin/" ++ suffix) →
      refFromDescribe ("remotes/origin/" ++ "main") ≠ ref :=
  describe_strip_spec "main" "main" (by decide) (by decide)

/-- Claim C4: when the symbolic describe of HEAD fails (detached at a commit
with no matching ref name), `_git_current_ref` returns the stripped raw
commit identifier from `git rev-parse HEAD` instead of raising, and the
checkout step of `do_git` compares exactly that identity against the
desired ref: the checkout command is issued iff they differ. -/
theorem git_ref_fallback (w : World) (conf_ref conf_remote : String)
    (h : w.describeOut = none) :
    (git_current_ref w).fst = pyStrip w.revParseOut ∧
    (Effect.gitCmd ["git", "-C", "/opt/ddeb-retriever", "checkout", "origin/" ++ conf_ref]
        ∈ (do_git conf_ref conf_remote w).snd
      ↔ conf_ref ≠ pyStrip w.revParseOut) := by
  constructor
  · simp [git_current_ref, h]
  · by_cases hi : w.installExists <;>
      by_cases hr : conf_remote = w.originUrl <;>
      by_cases hc : conf_ref = pyStrip w.revParseOut <;>
      simp [do_git, git_current_ref, h, hi, hr, hc, gitInvocation, gitArgs, DEST_INSTALL]

/-- Witness for C4: a detached repository at commit `0123abcd` with
desired ref `main` resolves to the raw identifier and triggers the
checkout. -/
theorem git_ref_fallback_witness :
    (git_current_ref detachedWorld).fst = pyStrip detachedWorld.revParseOut ∧
    (Effect.gitCmd ["git", "-C", "/opt/ddeb-retriever", "checkout", "origin/" ++ "main"]
        ∈ (do_git "main" "http://repo" detachedWorld).snd
      ↔ "main" ≠ pyStrip detachedWorld.revParseOut) :=
  git_ref_fallback detachedWorld "main" "http://repo" rfl

/-- Claim C1: when any required key is missing, the gate returns false, `apply`
stops with an empty effect trace (no package, git, user, directory,
unit-file or proxy mutation) and the unit status becomes `Blocked` with
a message listing exactly the missing keys; when all four keys are
present the gate returns true and `apply` runs the full step sequence,
finishing with `set_ports(80)` and `Active` status. -/
theorem apply_gate_spec (cfg : Config) (w : World) :
    (missingKeys cfg ≠ [] →
      (config_is_valid cfg w).fst = false ∧
      apply cfg w
        = Except.ok
            ({w with status :=
                Status.blocked ("Needs: " ++ String.intercalate ", " (missingKeys cfg))}, []) ∧
      ∀ k, k ∈ missingKeys cfg ↔ (k ∈ requiredKeys ∧ cfg.lookup k = none)) ∧
    (missingKeys cfg = [] →
      (config_is_valid cfg w).fst = true ∧
      apply cfg w
        = Except.ok (runSteps ((cfg.lookup CONF_REF).getD "") ((cfg.lookup CONF_REMOTE).getD "")
            ((cfg.lookup CONF_SCHEDULE).getD "") w)) := by
  constructor
  · intro h
    refine ⟨by simp [config_is_valid, h], by simp [apply, config_is_valid, h], ?_⟩
    intro k
    simp [missingKeys, List.mem_filter, Option.isNone_iff_eq_none]
  · intro h
    have getSome : ∀ k, k ∈ requiredKeys → ∃ v, cfg.lookup k = some v := by
      intro k hk
      cases hc : cfg.lookup k with
      | some v => exact ⟨v, rfl⟩
      | none =>
        exfalso
        have hin : k ∈ missingKeys cfg := List.mem_filter.mpr ⟨hk, by simp [hc]⟩
        rw [h] at hin
        exact List.not_mem_nil k hin
    obtain ⟨ref, href⟩ := getSome CONF_REF (by simp [requiredKeys])
    obtain ⟨remote, hremote⟩ := getSome CONF_REMOTE (by simp [requiredKeys])
    obtain ⟨sched, hsched⟩ := getSome CONF_SCHEDULE (by simp [requiredKeys])
    refine ⟨by simp [config_is_valid, h], ?_⟩
    simp [apply, config_is_valid, h, configGet, href, hremote, hsched, runSteps,
      Bind.bind, Except.bind]

/-- Witness for C1: the empty configuration blocks with all four keys
listed and an empty effect trace. -/
theorem apply_gate_spec_witness :
    apply ([] : Config) baseWorld
      = Except.ok
          ({baseWorld with status :=
              Status.blocked ("Needs: " ++ String.intercalate ", " (missingKeys ([] : Config)))},
           []) :=
  ((apply_gate_spec [] baseWorld).1 (by decide)).2.1

